import Mathlib

/-!
Verification development for the greenhouse sensor dashboard
(`src/project/streamlit_app.py`).

The script has two logical layers, both embedded here:

* the `load_data` normalizer, which works on a raw pandas DataFrame
  (a named collection of equal-length columns) and resolves the five
  canonical columns via fallback-rename chains — embedded as
  `GreenhouseApp.normalize` over `GreenhouseApp.DataFrame`;
* the filter & aggregation pipeline, which works on the normalized
  table — embedded row-wise as functions over `GreenhouseApp.CanonFrame`
  (a list of `Reading`s plus the categorical domain of `metric_type`,
  which pandas carries in the column dtype and which
  `groupby(..., observed=False)` consults).

Pandas `NaN`/`NaT` is modelled by `Value.missing`; a float `NaN`
produced by a `0/0` rate is modelled by `none : Option ℚ`, keeping it
distinct from `some 0`.
-/

namespace GreenhouseApp

/-- A cell value of the tabular dataset: a string label, a plain
number (an int64/float cell, e.g. the synthesized `RangeIndex`
ordinals), a timestamp (a datetime64 cell, carried as its position on
the epoch axis), or a missing value (pandas `NaN`/`NaT`). Keeping
`num` and `ts` distinct mirrors the dtype distinction pandas makes:
`pd.to_datetime` maps an integer column to a *different* datetime64
column. -/
inductive Value where
  | str (s : String)
  | num (q : ℚ)
  | ts (q : ℚ)
  | missing
deriving DecidableEq, Repr

/-- The comparison `sort_values` uses between two cell values: numbers
sort before timestamps, timestamps before strings, strings before
missing values, and values of the same kind sort by their natural
order. (Only the same-kind cases matter to the program: a column has
one dtype; the cross-kind cases just make the order total.) -/
def Value.le : Value → Value → Bool
  | .num a, .num b => decide (a ≤ b)
  | .num _, .ts _ => true
  | .num _, .str _ => true
  | .num _, .missing => true
  | .ts _, .num _ => false
  | .ts a, .ts b => decide (a ≤ b)
  | .ts _, .str _ => true
  | .ts _, .missing => true
  | .str _, .num _ => false
  | .str _, .ts _ => false
  | .str a, .str b => decide (a ≤ b)
  | .str _, .missing => true
  | .missing, .num _ => false
  | .missing, .ts _ => false
  | .missing, .str _ => false
  | .missing, .missing => true

/-- One row of the normalized dataset: the five canonical columns
(`timestamp_utc`, `metric_type`, `device_id`, `scaled_value`,
`outlier_type`). -/
structure Reading where
  timestamp_utc : Value
  metric_type : Value
  device_id : Value
  scaled_value : Value
  outlier_type : Value
deriving DecidableEq, Repr

/-- The normalized table the pipeline consumes: its rows plus the
categorical domain of `metric_type` (the dtype categories, which
`groupby("metric_type", observed=False)` enumerates even for
zero-row groups; pandas keeps the categories unchanged when a
categorical column is filtered). -/
structure CanonFrame where
  rows : List Reading
  metricDomain : List Value
deriving DecidableEq, Repr

/-- The user's filter state: the multiselect values and the row-index
range slider bounds `(start_idx, end_idx)`. -/
structure Selection where
  selected_metrics : List Value
  selected_devices : List Value
  start_idx : Nat
  end_idx : Nat
deriving DecidableEq, Repr

/-- Row order used by `sort_values("timestamp_utc")`. -/
def tsLe (a b : Reading) : Bool :=
  Value.le a.timestamp_utc b.timestamp_utc

/-- `df_filtered[df_filtered["metric_type"].isin(selected_metrics)]`. -/
def filterByMetric (rows : List Reading) (selected : List Value) : List Reading :=
  rows.filter (fun r => selected.contains r.metric_type)

/-- `df_filtered[df_filtered["device_id"].isin(selected_devices)]`. -/
def filterByDevice (rows : List Reading) (selected : List Value) : List Reading :=
  rows.filter (fun r => selected.contains r.device_id)

/-- `df_filtered.sort_values("timestamp_utc").reset_index(drop=True)`;
the model carries no index, so resetting it is the identity. -/
def sortByTimestamp (rows : List Reading) : List Reading :=
  rows.mergeSort tsLe

/-- `df_filtered.iloc[start_idx : end_idx + 1]` for nonnegative bounds:
Python slicing clamps at the end of the list. -/
def sliceRows (rows : List Reading) (start_idx end_idx : Nat) : List Reading :=
  (rows.drop start_idx).take (end_idx + 1 - start_idx)

/-- The candidate set right before the guard: metric filter, then
device filter, then sort by `timestamp_utc`. -/
def candidateRows (df : CanonFrame) (sel : Selection) : List Reading :=
  sortByTimestamp (filterByDevice (filterByMetric df.rows sel.selected_metrics)
    sel.selected_devices)

/-- The whole filter stage of the script: if `n_rows <= 1` after
metric and device filtering the script warns and calls `st.stop()`
(modelled as `none`); otherwise the row-range slice is applied and the
render pass continues with the Filtered View. -/
def pipeline (df : CanonFrame) (sel : Selection) : Option CanonFrame :=
  let sorted := candidateRows df sel
  if sorted.length ≤ 1 then none
  else some { rows := sliceRows sorted sel.start_idx sel.end_idx
              metricDomain := df.metricDomain }

/-- `r["outlier_type"] != "none"` (a missing outlier label also
compares unequal to `"none"`, as in pandas). -/
def isOutlier (r : Reading) : Bool :=
  r.outlier_type != Value.str "none"

/-- `(df_filtered["outlier_type"] != "none").mean()`: the mean of an
empty boolean series is `NaN` in pandas (modelled `none`), otherwise
the fraction of `true` entries. -/
def outlierRate (rows : List Reading) : Option ℚ :=
  if rows.length = 0 then none
  else some (((rows.filter isOutlier).length : ℚ) / rows.length)

/-- One row of the per-metric summary table: the group key and the
aggregates `n_readings`, `n_outliers`, `outlier_rate`
(`none` models the float `NaN` that pandas produces for `0 / 0`). -/
structure MetricGroup where
  metric : Value
  n_readings : Nat
  n_outliers : Nat
  outlier_rate : Option ℚ
deriving DecidableEq, Repr

/-- The `metric_summary` table:
`groupby("metric_type", observed=False)` over the categorical column
enumerates every category of the dtype (one group row per category, in
category order, also for empty groups), `agg` computes the group size
and the number of outlier rows, and the final column divides them
(`0 / 0` giving `NaN`, modelled `none`). -/
def metricSummary (df : CanonFrame) : List MetricGroup :=
  df.metricDomain.map (fun m =>
    let grp := df.rows.filter (fun r => r.metric_type == m)
    let nr := grp.length
    let no := (grp.filter isOutlier).length
    { metric := m
      n_readings := nr
      n_outliers := no
      outlier_rate := if nr = 0 then none else some ((no : ℚ) / nr) })

/-- A raw pandas DataFrame as `load_data` sees it after
`reset_index(drop=True)`: a row count and an ordered association list of
named columns (each column a list of cell values; in a well-formed frame
every column has `nrows` entries). -/
structure DataFrame where
  nrows : Nat
  cols : List (String × List Value)
deriving DecidableEq, Repr

/-- Column lookup, `df[name]` (first column with that name). -/
def DataFrame.getCol (df : DataFrame) (name : String) : Option (List Value) :=
  (df.cols.find? (fun c => c.1 == name)).map (fun c => c.2)

/-- `name in df.columns`. -/
def DataFrame.hasCol (df : DataFrame) (name : String) : Bool :=
  df.cols.any (fun c => c.1 == name)

/-- Helper for column assignment: replace the first column with the
given name, or append a new column at the end. -/
def setColList (name : String) (vs : List Value) :
    List (String × List Value) → List (String × List Value)
  | [] => [(name, vs)]
  | c :: cs => if c.1 == name then (name, vs) :: cs else c :: setColList name vs cs

/-- Column assignment, `df[name] = vs`: an existing column is replaced
in place, a new one is appended after the existing columns. -/
def DataFrame.setCol (df : DataFrame) (name : String) (vs : List Value) : DataFrame :=
  { df with cols := setColList name vs df.cols }

/-- Numeric value of a decimal digit character, if it is one. -/
def digitVal (c : Char) : Option Nat :=
  if 48 ≤ c.toNat ∧ c.toNat ≤ 57 then some (c.toNat - 48) else none

/-- Accumulate the decimal value of a digit sequence, failing on the
first non-digit. -/
def parseDigitsAux : List Char → Nat → Option Nat
  | [], acc => some acc
  | c :: cs, acc =>
    match digitVal c with
    | none => none
    | some d => parseDigitsAux cs (acc * 10 + d)

/-- Parse a non-empty all-digit character list to its decimal value. -/
def parseDigits : List Char → Option Nat
  | [] => none
  | cs => parseDigitsAux cs 0

/-- Models `pd.to_datetime` on a single cell: a plain number (an
int64 cell) is interpreted on the epoch axis and *converted* to a
timestamp — the cell changes kind, as the column dtype changes from
int64 to datetime64; a timestamp is already datetime64 and passes
through unchanged; a string of digits parses to the timestamp at that
epoch position; any other string fails to parse; a missing value
becomes `NaT` (stays missing). -/
def toDatetime : Value → Option Value
  | .num q => some (.ts q)
  | .ts q => some (.ts q)
  | .str s => (parseDigits s.data).map (fun n => Value.ts (n : ℚ))
  | .missing => some .missing

/-- `pd.to_datetime(series)` with the default `errors="raise"`: each
cell is converted, and the whole conversion fails (raises) if any cell
fails to parse. -/
def toDatetimeSeries : List Value → Option (List Value)
  | [] => some []
  | v :: vs =>
    (toDatetime v).bind (fun w => (toDatetimeSeries vs).map (fun ws => w :: ws))

/-- `pd.to_datetime(series, errors="ignore")`: on any parse failure the
entire input series is returned unchanged. -/
def toDatetimeIgnore (vs : List Value) : List Value :=
  (toDatetimeSeries vs).getD vs

/-- Step 1 of `load_data`: resolve `timestamp_utc`. If absent, try
`ts_utc_parsed` then `ts_utc` (each through `pd.to_datetime`, which may
raise); if neither exists, synthesize `pd.RangeIndex(len(df))`, the
ordinals `0..n-1`. If present, coerce it with `errors="ignore"`. -/
def normTimestamp (df : DataFrame) : Option DataFrame :=
  if df.hasCol "timestamp_utc" then
    some (df.setCol "timestamp_utc"
      (toDatetimeIgnore ((df.getCol "timestamp_utc").getD [])))
  else if df.hasCol "ts_utc_parsed" then
    (toDatetimeSeries ((df.getCol "ts_utc_parsed").getD [])).map
      (fun vs => df.setCol "timestamp_utc" vs)
  else if df.hasCol "ts_utc" then
    (toDatetimeSeries ((df.getCol "ts_utc").getD [])).map
      (fun vs => df.setCol "timestamp_utc" vs)
  else
    some (df.setCol "timestamp_utc" ((List.range df.nrows).map (fun i : Nat => Value.num (i : ℚ))))

/-- Step 2 of `load_data`: if `metric_type` is absent and `dt` exists,
copy it. -/
def normMetric (df : DataFrame) : DataFrame :=
  if !df.hasCol "metric_type" && df.hasCol "dt" then
    df.setCol "metric_type" ((df.getCol "dt").getD [])
  else df

/-- Step 3 of `load_data`: if `device_id` is absent and `ref_d` exists,
copy it. -/
def normDevice (df : DataFrame) : DataFrame :=
  if !df.hasCol "device_id" && df.hasCol "ref_d" then
    df.setCol "device_id" ((df.getCol "ref_d").getD [])
  else df

/-- Step 4 of `load_data`: if `scaled_value` is absent, copy
`scaled_v` if it exists, else `v` if it exists. -/
def normScaled (df : DataFrame) : DataFrame :=
  if df.hasCol "scaled_value" then df
  else if df.hasCol "scaled_v" then
    df.setCol "scaled_value" ((df.getCol "scaled_v").getD [])
  else if df.hasCol "v" then
    df.setCol "scaled_value" ((df.getCol "v").getD [])
  else df

/-- Step 5 of `load_data`: if `outlier_type` is absent, assign the
scalar `"none"`, which pandas broadcasts to every one of the `len(df)`
rows. -/
def normOutlier (df : DataFrame) : DataFrame :=
  if !df.hasCol "outlier_type" then
    df.setCol "outlier_type" (List.replicate df.nrows (Value.str "none"))
  else df

/-- The whole normalization body of `load_data` (after the pickle read
and index reset): the five fallback steps in order; `none` models a
raised `pd.to_datetime` parse error. -/
def normalize (df : DataFrame) : Option DataFrame :=
  (normTimestamp df).map (fun d => normOutlier (normScaled (normDevice (normMetric d))))

/-- The cell of a named column at row `i` (missing when the column or
the row does not exist). -/
def DataFrame.colAt (df : DataFrame) (name : String) (i : Nat) : Value :=
  ((df.getCol name).getD []).getD i Value.missing

/-- The row-wise reading of a normalized frame: one `Reading` per row
index, built from the five canonical columns. -/
def rowsOf (df : DataFrame) : List Reading :=
  (List.range df.nrows).map (fun i =>
    { timestamp_utc := df.colAt "timestamp_utc" i
      metric_type := df.colAt "metric_type" i
      device_id := df.colAt "device_id" i
      scaled_value := df.colAt "scaled_value" i
      outlier_type := df.colAt "outlier_type" i })

/-- Concrete readings used to run the embedded pipeline on data shaped
like the dashboard's dataset. -/
def sampleRow0 : Reading :=
  { timestamp_utc := Value.num 0, metric_type := Value.str "current",
    device_id := Value.str "d1", scaled_value := Value.num 40,
    outlier_type := Value.str "none" }

def sampleRow1 : Reading :=
  { timestamp_utc := Value.num 1, metric_type := Value.str "current",
    device_id := Value.str "d1", scaled_value := Value.num 60,
    outlier_type := Value.str "spike" }

def sampleRow2 : Reading :=
  { timestamp_utc := Value.num 2, metric_type := Value.str "fault",
    device_id := Value.str "d2", scaled_value := Value.num 50,
    outlier_type := Value.str "none" }

/-- A concrete normalized dataset whose metric dtype also carries a
category with no matching rows. -/
def sampleFrame : CanonFrame :=
  { rows := [sampleRow0, sampleRow1, sampleRow2]
    metricDomain := [Value.str "current", Value.str "fault",
      Value.str "sensor_battery_level"] }

/-- A selection keeping every sample row. -/
def sampleSel : Selection :=
  { selected_metrics := [Value.str "current", Value.str "fault"]
    selected_devices := [Value.str "d1", Value.str "d2"]
    start_idx := 0
    end_idx := 2 }

/-- The Filtered View the pipeline produces from `sampleFrame` under
`sampleSel`. -/
def sampleView : CanonFrame :=
  { rows := [sampleRow0, sampleRow1, sampleRow2]
    metricDomain := [Value.str "current", Value.str "fault",
      Value.str "sensor_battery_level"] }

/-- A strictly narrower selection than `sampleSel` in every dimension. -/
def narrowSel : Selection :=
  { selected_metrics := [Value.str "current"]
    selected_devices := [Value.str "d1"]
    start_idx := 0
    end_idx := 1 }

/-- The Filtered View under `narrowSel`. -/
def narrowView : CanonFrame :=
  { rows := [sampleRow0, sampleRow1]
    metricDomain := [Value.str "current", Value.str "fault",
      Value.str "sensor_battery_level"] }

/-- A raw frame that resolves every canonical column through a legacy
fallback and has no timestamp-like column at all. -/
def bareFrame : DataFrame :=
  { nrows := 2
    cols := [("dt", [Value.str "current", Value.str "fault"]),
      ("ref_d", [Value.str "d1", Value.str "d2"]),
      ("v", [Value.num 40, Value.num 50])] }

/-- The normalized form of `bareFrame`. -/
def bareFrameOut : DataFrame :=
  { nrows := 2
    cols := [("dt", [Value.str "current", Value.str "fault"]),
      ("ref_d", [Value.str "d1", Value.str "d2"]),
      ("v", [Value.num 40, Value.num 50]),
      ("timestamp_utc", [Value.num 0, Value.num 1]),
      ("metric_type", [Value.str "current", Value.str "fault"]),
      ("device_id", [Value.str "d1", Value.str "d2"]),
      ("scaled_value", [Value.num 40, Value.num 50]),
      ("outlier_type", [Value.str "none", Value.str "none"])] }

/-- A legacy-named frame whose timestamp source parses cleanly. -/
def legacyGoodFrame : DataFrame :=
  { nrows := 2
    cols := [("ts_utc_parsed", [Value.str "3", Value.str "7"]),
      ("dt", [Value.str "current", Value.str "fault"]),
      ("ref_d", [Value.str "d1", Value.str "d2"]),
      ("scaled_v", [Value.num 40, Value.num 50])] }

/-- The same underlying values as `legacyGoodFrame`, already carried
under the canonical column names. -/
def canonGoodFrame : DataFrame :=
  { nrows := 2
    cols := [("timestamp_utc", [Value.str "3", Value.str "7"]),
      ("metric_type", [Value.str "current", Value.str "fault"]),
      ("device_id", [Value.str "d1", Value.str "d2"]),
      ("scaled_value", [Value.num 40, Value.num 50])] }

/-- The normalized form of `canonGoodFrame`: its string timestamps are
coerced to timestamp cells and `outlier_type` is filled. -/
def canonGoodFrameOut : DataFrame :=
  { nrows := 2
    cols := [("timestamp_utc", [Value.ts 3, Value.ts 7]),
      ("metric_type", [Value.str "current", Value.str "fault"]),
      ("device_id", [Value.str "d1", Value.str "d2"]),
      ("scaled_value", [Value.num 40, Value.num 50]),
      ("outlier_type", [Value.str "none", Value.str "none"])] }

/-- A legacy-named frame whose timestamp source does not parse. -/
def legacyBadFrame : DataFrame :=
  { nrows := 1
    cols := [("ts_utc_parsed", [Value.str "oops"]),
      ("dt", [Value.str "current"]),
      ("ref_d", [Value.str "d1"]),
      ("scaled_v", [Value.num 5])] }

/-- The same unparseable values under the canonical names. -/
def canonBadFrame : DataFrame :=
  { nrows := 1
    cols := [("timestamp_utc", [Value.str "oops"]),
      ("metric_type", [Value.str "current"]),
      ("device_id", [Value.str "d1"]),
      ("scaled_value", [Value.num 5])] }

/-- A frame already carrying all five canonical columns, but whose
`timestamp_utc` values are strings the timestamp coercion changes. -/
def canonStrTsFrame : DataFrame :=
  { nrows := 1
    cols := [("timestamp_utc", [Value.str "5"]),
      ("metric_type", [Value.str "current"]),
      ("device_id", [Value.str "d1"]),
      ("scaled_value", [Value.num 5]),
      ("outlier_type", [Value.str "none"])] }

theorem Value.le_transitive : ∀ a b c : Value,
    Value.le a b = true → Value.le b c = true → Value.le a c = true := by
  intro a b c hab hbc
  cases a <;> cases b <;> cases c <;>
    simp_all only [Value.le, decide_eq_true_eq, Bool.false_eq_true] <;>
    exact le_trans hab hbc

theorem Value.le_totality : ∀ a b : Value,
    (Value.le a b || Value.le b a) = true := by
  intro a b
  cases a <;> cases b <;>
    simp [Value.le] <;>
    exact le_total _ _

theorem setColList_find_self (n : String) (vs : List Value) :
    ∀ cols : List (String × List Value),
      (setColList n vs cols).find? (fun c => c.1 == n) = some (n, vs)
  | [] => by simp [setColList]
  | c :: cs => by
    by_cases h : c.1 = n
    · simp [setColList, h]
    · simp [setColList, h, List.find?_cons, setColList_find_self n vs cs]

theorem setColList_find_ne (n m : String) (vs : List Value) (h : m ≠ n) :
    ∀ cols : List (String × List Value),
      (setColList n vs cols).find? (fun c => c.1 == m) = cols.find? (fun c => c.1 == m)
  | [] => by simp [setColList, Ne.symm h]
  | c :: cs => by
    have hnm : (n == m) = false := by simp [Ne.symm h]
    by_cases hc : c.1 = n
    · have hb : (c.1 == n) = true := by simp [hc]
      have hm : (c.1 == m) = false := by simp [hc, Ne.symm h]
      simp [setColList, hb, List.find?_cons, hnm, hm]
    · have hb : (c.1 == n) = false := by simp [hc]
      simp [setColList, hb, List.find?_cons, setColList_find_ne n m vs h cs]

theorem setColList_eq_of_find (n : String) (vs : List Value) :
    ∀ cols : List (String × List Value),
      (cols.find? (fun c => c.1 == n)).map (fun c => c.2) = some vs →
      setColList n vs cols = cols
  | [] => by simp
  | ⟨c1, c2⟩ :: cs => by
    intro h
    by_cases hc : c1 = n
    · have hb : ((c1, c2).1 == n) = true := by simp [hc]
      simp only [List.find?_cons, hb] at h
      have h2 : c2 = vs := by simpa using h
      subst hc
      simp [setColList, h2]
    · have hb : ((c1, c2).1 == n) = false := by simp [hc]
      simp only [List.find?_cons, hb] at h
      simp [setColList, hc, setColList_eq_of_find n vs cs h]

theorem getCol_setCol_self (df : DataFrame) (n : String) (vs : List Value) :
    (df.setCol n vs).getCol n = some vs := by
  simp [DataFrame.getCol, DataFrame.setCol, setColList_find_self]

theorem getCol_setCol_ne (df : DataFrame) (n m : String) (vs : List Value) (h : m ≠ n) :
    (df.setCol n vs).getCol m = df.getCol m := by
  simp [DataFrame.getCol, DataFrame.setCol, setColList_find_ne n m vs h]

theorem setCol_getCol_eq (df : DataFrame) (n : String) (vs : List Value)
    (h : df.getCol n = some vs) : df.setCol n vs = df := by
  unfold DataFrame.getCol at h
  unfold DataFrame.setCol
  rw [setColList_eq_of_find n vs df.cols h]

theorem nrows_setCol (df : DataFrame) (n : String) (vs : List Value) :
    (df.setCol n vs).nrows = df.nrows := rfl

theorem hasCol_eq_isSome (df : DataFrame) (n : String) :
    df.hasCol n = (df.getCol n).isSome := by
  unfold DataFrame.hasCol DataFrame.getCol
  induction df.cols with
  | nil => rfl
  | cons c cs ih =>
    by_cases hc : c.1 = n <;> simp [List.any_cons, List.find?_cons, hc, ih]

theorem hasCol_setCol_self (df : DataFrame) (n : String) (vs : List Value) :
    (df.setCol n vs).hasCol n = true := by
  rw [hasCol_eq_isSome, getCol_setCol_self]
  rfl

theorem hasCol_setCol_ne (df : DataFrame) (n m : String) (vs : List Value) (h : m ≠ n) :
    (df.setCol n vs).hasCol m = df.hasCol m := by
  rw [hasCol_eq_isSome, hasCol_eq_isSome, getCol_setCol_ne df n m vs h]

theorem getCol_of_hasCol (df : DataFrame) (n : String) (h : df.hasCol n = true) :
    ∃ vs, df.getCol n = some vs := by
  rw [hasCol_eq_isSome] at h
  exact Option.isSome_iff_exists.mp h

theorem hasCol_of_getCol (df : DataFrame) (n : String) (vs : List Value)
    (h : df.getCol n = some vs) : df.hasCol n = true := by
  rw [hasCol_eq_isSome, h]
  rfl

theorem toDatetime_idem (v w : Value) (h : toDatetime v = some w) :
    toDatetime w = some w := by
  cases v with
  | num q => simp [toDatetime] at h; simp [toDatetime, ← h]
  | ts q => simp [toDatetime] at h; simp [toDatetime, ← h]
  | missing => simp [toDatetime] at h; simp [toDatetime, ← h]
  | str s =>
    simp only [toDatetime, Option.map_eq_some'] at h
    obtain ⟨k, _, hk⟩ := h
    simp [toDatetime, ← hk]

theorem toDatetimeSeries_of_forall (vs : List Value)
    (h : ∀ v ∈ vs, toDatetime v = some v) : toDatetimeSeries vs = some vs := by
  induction vs with
  | nil => rfl
  | cons v vs ih =>
    have hv := h v (List.mem_cons_self v vs)
    have hvs := ih (fun w hw => h w (List.mem_cons_of_mem v hw))
    simp [toDatetimeSeries, hv, hvs]

theorem toDatetimeSeries_idem (vs ws : List Value)
    (h : toDatetimeSeries vs = some ws) : toDatetimeSeries ws = some ws := by
  induction vs generalizing ws with
  | nil =>
    simp only [toDatetimeSeries, Option.some.injEq] at h
    simp [← h, toDatetimeSeries]
  | cons v vs ih =>
    simp only [toDatetimeSeries, Option.bind_eq_some', Option.map_eq_some'] at h
    obtain ⟨w, hw, ws', hws', hcons⟩ := h
    have h1 := toDatetime_idem v w hw
    have h2 := ih ws' hws'
    simp [toDatetimeSeries, ← hcons, h1, h2]

theorem toDatetimeIgnore_of_series (vs ws : List Value)
    (h : toDatetimeSeries vs = some ws) : toDatetimeIgnore vs = ws := by
  simp [toDatetimeIgnore, h]

theorem toDatetimeIgnore_idem (vs : List Value) :
    toDatetimeIgnore (toDatetimeIgnore vs) = toDatetimeIgnore vs := by
  cases h : toDatetimeSeries vs with
  | none => simp [toDatetimeIgnore, h]
  | some ws =>
    have h2 := toDatetimeSeries_idem vs ws h
    simp [toDatetimeIgnore, h, h2]

theorem nrows_normMetric (df : DataFrame) : (normMetric df).nrows = df.nrows := by
  unfold normMetric
  split <;> rfl

theorem nrows_normDevice (df : DataFrame) : (normDevice df).nrows = df.nrows := by
  unfold normDevice
  split <;> rfl

theorem nrows_normScaled (df : DataFrame) : (normScaled df).nrows = df.nrows := by
  unfold normScaled
  split <;> [rfl; split] <;> [rfl; split] <;> rfl

theorem nrows_normOutlier (df : DataFrame) : (normOutlier df).nrows = df.nrows := by
  unfold normOutlier
  split <;> rfl

theorem getCol_normMetric_ne (df : DataFrame) (name : String)
    (h : name ≠ "metric_type") : (normMetric df).getCol name = df.getCol name := by
  unfold normMetric
  split
  · exact getCol_setCol_ne df _ name _ h
  · rfl

theorem getCol_normDevice_ne (df : DataFrame) (name : String)
    (h : name ≠ "device_id") : (normDevice df).getCol name = df.getCol name := by
  unfold normDevice
  split
  · exact getCol_setCol_ne df _ name _ h
  · rfl

theorem getCol_normScaled_ne (df : DataFrame) (name : String)
    (h : name ≠ "scaled_value") : (normScaled df).getCol name = df.getCol name := by
  unfold normScaled
  split
  · rfl
  · split
    · exact getCol_setCol_ne df _ name _ h
    · split
      · exact getCol_setCol_ne df _ name _ h
      · rfl

theorem getCol_normOutlier_ne (df : DataFrame) (name : String)
    (h : name ≠ "outlier_type") : (normOutlier df).getCol name = df.getCol name := by
  unfold normOutlier
  split
  · exact getCol_setCol_ne df _ name _ h
  · rfl

theorem hasCol_normMetric_ne (df : DataFrame) (name : String)
    (h : name ≠ "metric_type") : (normMetric df).hasCol name = df.hasCol name := by
  rw [hasCol_eq_isSome, hasCol_eq_isSome, getCol_normMetric_ne df name h]

theorem hasCol_normDevice_ne (df : DataFrame) (name : String)
    (h : name ≠ "device_id") : (normDevice df).hasCol name = df.hasCol name := by
  rw [hasCol_eq_isSome, hasCol_eq_isSome, getCol_normDevice_ne df name h]

theorem hasCol_normScaled_ne (df : DataFrame) (name : String)
    (h : name ≠ "scaled_value") : (normScaled df).hasCol name = df.hasCol name := by
  rw [hasCol_eq_isSome, hasCol_eq_isSome, getCol_normScaled_ne df name h]

theorem hasCol_normOutlier_ne (df : DataFrame) (name : String)
    (h : name ≠ "outlier_type") : (normOutlier df).hasCol name = df.hasCol name := by
  rw [hasCol_eq_isSome, hasCol_eq_isSome, getCol_normOutlier_ne df name h]

theorem normMetric_of_hasCol (df : DataFrame) (h : df.hasCol "metric_type" = true) :
    normMetric df = df := by
  simp [normMetric, h]

theorem normMetric_of_absent (df : DataFrame) (h : df.hasCol "dt" = false) :
    normMetric df = df := by
  simp [normMetric, h]

theorem getCol_normMetric_copy (df : DataFrame) (M : List Value)
    (h1 : df.hasCol "metric_type" = false) (h2 : df.getCol "dt" = some M) :
    (normMetric df).getCol "metric_type" = some M := by
  have hd : df.hasCol "dt" = true := hasCol_of_getCol df "dt" M h2
  simp only [normMetric, h1, hd, Bool.not_false, Bool.and_self, if_true, h2, Option.getD_some]
  exact getCol_setCol_self df "metric_type" M

theorem normDevice_of_hasCol (df : DataFrame) (h : df.hasCol "device_id" = true) :
    normDevice df = df := by
  simp [normDevice, h]

theorem normDevice_of_absent (df : DataFrame) (h : df.hasCol "ref_d" = false) :
    normDevice df = df := by
  simp [normDevice, h]

theorem getCol_normDevice_copy (df : DataFrame) (D : List Value)
    (h1 : df.hasCol "device_id" = false) (h2 : df.getCol "ref_d" = some D) :
    (normDevice df).getCol "device_id" = some D := by
  have hd : df.hasCol "ref_d" = true := hasCol_of_getCol df "ref_d" D h2
  simp only [normDevice, h1, hd, Bool.not_false, Bool.and_self, if_true, h2, Option.getD_some]
  exact getCol_setCol_self df "device_id" D

theorem normScaled_of_hasCol (df : DataFrame) (h : df.hasCol "scaled_value" = true) :
    normScaled df = df := by
  simp [normScaled, h]

theorem normScaled_of_absent (df : DataFrame) (h1 : df.hasCol "scaled_v" = false)
    (h2 : df.hasCol "v" = false) : normScaled df = df := by
  unfold normScaled
  split
  · rfl
  · simp [h1, h2]

theorem getCol_normScaled_copy (df : DataFrame) (S : List Value)
    (h1 : df.hasCol "scaled_value" = false)
    (h2 : df.getCol "scaled_v" = some S ∨
      (df.hasCol "scaled_v" = false ∧ df.getCol "v" = some S)) :
    (normScaled df).getCol "scaled_value" = some S := by
  rcases h2 with h2 | ⟨h2a, h2b⟩
  · have hd : df.hasCol "scaled_v" = true := hasCol_of_getCol df "scaled_v" S h2
    simp only [normScaled, h1, hd, if_false, if_true, Bool.false_eq_true, h2, Option.getD_some]
    exact getCol_setCol_self df "scaled_value" S
  · have hd : df.hasCol "v" = true := hasCol_of_getCol df "v" S h2b
    simp only [normScaled, h1, h2a, hd, if_false, if_true, Bool.false_eq_true, h2b,
      Option.getD_some]
    exact getCol_setCol_self df "scaled_value" S

theorem normOutlier_of_hasCol (df : DataFrame) (h : df.hasCol "outlier_type" = true) :
    normOutlier df = df := by
  simp [normOutlier, h]

theorem getCol_normOutlier_fill (df : DataFrame) (h : df.hasCol "outlier_type" = false) :
    (normOutlier df).getCol "outlier_type" =
      some (List.replicate df.nrows (Value.str "none")) := by
  simp only [normOutlier, h, Bool.not_false, if_true]
  exact getCol_setCol_self df "outlier_type" _

theorem normTimestamp_present (df : DataFrame) (V : List Value)
    (h : df.getCol "timestamp_utc" = some V) :
    normTimestamp df = some (df.setCol "timestamp_utc" (toDatetimeIgnore V)) := by
  have hc : df.hasCol "timestamp_utc" = true := hasCol_of_getCol df _ V h
  simp [normTimestamp, hc, h]

theorem normTimestamp_parsed (df : DataFrame) (T T' : List Value)
    (h0 : df.hasCol "timestamp_utc" = false)
    (h1 : df.getCol "ts_utc_parsed" = some T)
    (h2 : toDatetimeSeries T = some T') :
    normTimestamp df = some (df.setCol "timestamp_utc" T') := by
  have hc : df.hasCol "ts_utc_parsed" = true := hasCol_of_getCol df _ T h1
  simp [normTimestamp, h0, hc, h1, h2]

theorem normTimestamp_tsutc (df : DataFrame) (T T' : List Value)
    (h0 : df.hasCol "timestamp_utc" = false)
    (h1 : df.hasCol "ts_utc_parsed" = false)
    (h2 : df.getCol "ts_utc" = some T)
    (h3 : toDatetimeSeries T = some T') :
    normTimestamp df = some (df.setCol "timestamp_utc" T') := by
  have hc : df.hasCol "ts_utc" = true := hasCol_of_getCol df _ T h2
  simp [normTimestamp, h0, h1, hc, h2, h3]

theorem normTimestamp_ordinal (df : DataFrame)
    (h0 : df.hasCol "timestamp_utc" = false)
    (h1 : df.hasCol "ts_utc_parsed" = false)
    (h2 : df.hasCol "ts_utc" = false) :
    normTimestamp df =
      some (df.setCol "timestamp_utc" ((List.range df.nrows).map (fun i : Nat => Value.num (i : ℚ)))) := by
  simp [normTimestamp, h0, h1, h2]

theorem nrows_normTimestamp (df d : DataFrame) (h : normTimestamp df = some d) :
    d.nrows = df.nrows := by
  unfold normTimestamp at h
  split at h
  · simp only [Option.some.injEq] at h
    rw [← h, nrows_setCol]
  · split at h
    · simp only [Option.map_eq_some'] at h
      obtain ⟨vs, _, hv⟩ := h
      rw [← hv]
      rfl
    · split at h
      · simp only [Option.map_eq_some'] at h
        obtain ⟨vs, _, hv⟩ := h
        rw [← hv]
        rfl
      · simp only [Option.some.injEq] at h
        rw [← h, nrows_setCol]

theorem getCol_normTimestamp_ne (df d : DataFrame) (name : String)
    (hn : name ≠ "timestamp_utc") (h : normTimestamp df = some d) :
    d.getCol name = df.getCol name := by
  unfold normTimestamp at h
  split at h
  · simp only [Option.some.injEq] at h
    rw [← h, getCol_setCol_ne df _ name _ hn]
  · split at h
    · simp only [Option.map_eq_some'] at h
      obtain ⟨vs, _, hv⟩ := h
      rw [← hv, getCol_setCol_ne df _ name _ hn]
    · split at h
      · simp only [Option.map_eq_some'] at h
        obtain ⟨vs, _, hv⟩ := h
        rw [← hv, getCol_setCol_ne df _ name _ hn]
      · simp only [Option.some.injEq] at h
        rw [← h, getCol_setCol_ne df _ name _ hn]

theorem hasCol_normTimestamp_ne (df d : DataFrame) (name : String)
    (hn : name ≠ "timestamp_utc") (h : normTimestamp df = some d) :
    d.hasCol name = df.hasCol name := by
  rw [hasCol_eq_isSome, hasCol_eq_isSome, getCol_normTimestamp_ne df d name hn h]

theorem normalize_eq (df d : DataFrame) (h : normTimestamp df = some d) :
    normalize df = some (normOutlier (normScaled (normDevice (normMetric d)))) := by
  simp [normalize, h]

theorem tsLe_transitive : ∀ a b c : Reading,
    tsLe a b = true → tsLe b c = true → tsLe a c = true :=
  fun a b c hab hbc => Value.le_transitive _ _ _ hab hbc

theorem tsLe_totality : ∀ a b : Reading, (tsLe a b || tsLe b a) = true :=
  fun a b => Value.le_totality _ _

theorem pipeline_some_inv (df : CanonFrame) (sel : Selection) (v : CanonFrame)
    (h : pipeline df sel = some v) :
    v = { rows := sliceRows (candidateRows df sel) sel.start_idx sel.end_idx
          metricDomain := df.metricDomain } ∧
    2 ≤ (candidateRows df sel).length := by
  simp only [pipeline] at h
  split at h
  · exact absurd h (by simp)
  · simp only [Option.some.injEq] at h
    refine ⟨h.symm, ?_⟩
    omega

theorem length_sliceRows (rows : List Reading) (s e : Nat) :
    (sliceRows rows s e).length = min (e + 1 - s) (rows.length - s) := by
  simp [sliceRows, List.length_take, List.length_drop]

theorem length_candidateRows (df : CanonFrame) (sel : Selection) :
    (candidateRows df sel).length =
      (filterByDevice (filterByMetric df.rows sel.selected_metrics)
        sel.selected_devices).length := by
  unfold candidateRows sortByTimestamp
  exact List.length_mergeSort _

theorem length_filter_mono {α : Type} (p q : α → Bool) (l : List α)
    (h : ∀ a, p a = true → q a = true) :
    (l.filter p).length ≤ (l.filter q).length := by
  induction l with
  | nil => simp
  | cons a l ih =>
    by_cases hp : p a = true
    · simp [List.filter_cons, hp, h a hp, ih]
    · have hp' : p a = false := by revert hp; cases p a <;> simp
      cases hq : q a <;> simp [List.filter_cons, hp', hq] <;> omega

theorem filter_filter_of_imp {α : Type} (p q : α → Bool) (l : List α)
    (h : ∀ a, p a = true → q a = true) :
    (l.filter q).filter p = l.filter p := by
  rw [List.filter_filter]
  apply List.filter_congr
  intro a _
  cases hp : p a
  · simp
  · simp [h a hp]

theorem sum_group_sizes (dom : List Value) (rows : List Reading)
    (hnd : dom.Nodup) (hcov : ∀ r ∈ rows, r.metric_type ∈ dom) :
    (dom.map (fun m => (rows.filter (fun r => r.metric_type == m)).length)).sum =
      rows.length := by
  induction dom generalizing rows with
  | nil =>
    cases rows with
    | nil => simp
    | cons r rs =>
      exact absurd (hcov r (List.mem_cons_self r rs)) (List.not_mem_nil r.metric_type)
  | cons d ds ih =>
    have hd : d ∉ ds := (List.nodup_cons.mp hnd).1
    have hds : ds.Nodup := (List.nodup_cons.mp hnd).2
    have hcov' : ∀ r ∈ rows.filter (fun r => !(r.metric_type == d)),
        r.metric_type ∈ ds := by
      intro r hr
      have hm := List.mem_of_mem_filter hr
      have hne : (r.metric_type == d) = false := by
        have hb := List.of_mem_filter hr
        revert hb
        cases r.metric_type == d <;> simp
      rcases List.mem_cons.mp (hcov r hm) with heq | hmem
      · rw [beq_eq_false_iff_ne] at hne
        exact absurd heq hne
      · exact hmem
    have ihh := ih (rows.filter (fun r => !(r.metric_type == d))) hds hcov'
    have hmap : ∀ m ∈ ds,
        ((rows.filter (fun r => !(r.metric_type == d))).filter
          (fun r => r.metric_type == m)).length =
        (rows.filter (fun r => r.metric_type == m)).length := by
      intro m hm
      rw [filter_filter_of_imp]
      intro r hr
      have hrm : r.metric_type = m := beq_iff_eq.mp hr
      have : (r.metric_type == d) = false := by
        apply beq_eq_false_iff_ne.mpr
        rw [hrm]
        intro hmd
        exact hd (hmd ▸ hm)
      simp [this]
    calc (((d :: ds)).map
          (fun m => (rows.filter (fun r => r.metric_type == m)).length)).sum
        = (rows.filter (fun r => r.metric_type == d)).length +
          (ds.map (fun m => (rows.filter (fun r => r.metric_type == m)).length)).sum := by
          simp
      _ = (rows.filter (fun r => r.metric_type == d)).length +
          (ds.map (fun m =>
            ((rows.filter (fun r => !(r.metric_type == d))).filter
              (fun r => r.metric_type == m)).length)).sum := by
          rw [List.map_congr_left (fun m hm => (hmap m hm).symm)]
      _ = (rows.filter (fun r => r.metric_type == d)).length +
          (rows.filter (fun r => !(r.metric_type == d))).length := by
          rw [ihh]
      _ = rows.length := (List.length_eq_length_filter_add _).symm

theorem mem_of_mem_pipeline (df : CanonFrame) (sel : Selection) (v : CanonFrame)
    (h : pipeline df sel = some v) :
    ∀ r ∈ v.rows, r ∈ df.rows := by
  intro r hr
  obtain ⟨hv, -⟩ := pipeline_some_inv df sel v h
  rw [hv] at hr
  have h1 : r ∈ candidateRows df sel := by
    have hsub : sliceRows (candidateRows df sel) sel.start_idx sel.end_idx ⊆
        candidateRows df sel := by
      unfold sliceRows
      exact ((List.take_sublist _ _).trans (List.drop_sublist _ _)).subset
    exact hsub hr
  have h2 : r ∈ filterByDevice (filterByMetric df.rows sel.selected_metrics)
      sel.selected_devices := by
    unfold candidateRows sortByTimestamp at h1
    exact (List.mergeSort_perm _ tsLe).mem_iff.mp h1
  exact List.mem_of_mem_filter (List.mem_of_mem_filter h2)

theorem pipeline_eval (df : CanonFrame) (sel : Selection) (l : List Reading)
    (hf : filterByDevice (filterByMetric df.rows sel.selected_metrics)
      sel.selected_devices = l)
    (hs : List.Pairwise (fun a b => tsLe a b = true) l)
    (h2 : 2 ≤ l.length) :
    pipeline df sel =
      some { rows := sliceRows l sel.start_idx sel.end_idx
             metricDomain := df.metricDomain } := by
  have hc : candidateRows df sel = l := by
    unfold candidateRows sortByTimestamp
    rw [hf]
    exact List.mergeSort_of_sorted hs
  unfold pipeline
  rw [hc, if_neg (by omega)]

theorem candidate_sample : candidateRows sampleFrame sampleSel = sampleFrame.rows := by
  unfold candidateRows sortByTimestamp
  have hf : filterByDevice (filterByMetric sampleFrame.rows sampleSel.selected_metrics)
      sampleSel.selected_devices = sampleFrame.rows := by decide
  rw [hf]
  exact List.mergeSort_of_sorted (by decide)

theorem pipeline_sample : pipeline sampleFrame sampleSel = some sampleView := by
  rw [pipeline_eval sampleFrame sampleSel sampleFrame.rows (by decide) (by decide)
    (by decide)]
  decide

theorem pipeline_narrow : pipeline sampleFrame narrowSel = some narrowView := by
  rw [pipeline_eval sampleFrame narrowSel [sampleRow0, sampleRow1] (by decide) (by decide)
    (by decide)]
  decide

theorem normTimestamp_fixpoint (df d : DataFrame) (h : normTimestamp df = some d)
    (hsrc : df.hasCol "timestamp_utc" = true ∨ df.hasCol "ts_utc_parsed" = true ∨
      df.hasCol "ts_utc" = true) :
    ∃ V, d.getCol "timestamp_utc" = some V ∧ toDatetimeIgnore V = V := by
  unfold normTimestamp at h
  split at h
  · simp only [Option.some.injEq] at h
    exact ⟨_, by rw [← h]; exact getCol_setCol_self df _ _, toDatetimeIgnore_idem _⟩
  · split at h
    · simp only [Option.map_eq_some'] at h
      obtain ⟨T', hT', hset⟩ := h
      exact ⟨T', by rw [← hset]; exact getCol_setCol_self df _ _,
        toDatetimeIgnore_of_series _ _ (toDatetimeSeries_idem _ _ hT')⟩
    · split at h
      · simp only [Option.map_eq_some'] at h
        obtain ⟨T', hT', hset⟩ := h
        exact ⟨T', by rw [← hset]; exact getCol_setCol_self df _ _,
          toDatetimeIgnore_of_series _ _ (toDatetimeSeries_idem _ _ hT')⟩
      · simp_all

theorem normMetric_dichotomy (d : DataFrame) :
    (normMetric d).hasCol "metric_type" = true ∨
    ((normMetric d).hasCol "dt" = false ∧ (normMetric d).hasCol "metric_type" = false) := by
  unfold normMetric
  split
  · exact Or.inl (hasCol_setCol_self d _ _)
  · rename_i hcond
    cases hm : d.hasCol "metric_type"
    · cases hdt : d.hasCol "dt"
      · exact Or.inr ⟨rfl, rfl⟩
      · exact absurd (by simp [hm, hdt]) hcond
    · exact Or.inl rfl

theorem normDevice_dichotomy (d : DataFrame) :
    (normDevice d).hasCol "device_id" = true ∨
    ((normDevice d).hasCol "ref_d" = false ∧ (normDevice d).hasCol "device_id" = false) := by
  unfold normDevice
  split
  · exact Or.inl (hasCol_setCol_self d _ _)
  · rename_i hcond
    cases hm : d.hasCol "device_id"
    · cases hdt : d.hasCol "ref_d"
      · exact Or.inr ⟨rfl, rfl⟩
      · exact absurd (by simp [hm, hdt]) hcond
    · exact Or.inl rfl

theorem normScaled_dichotomy (d : DataFrame) :
    (normScaled d).hasCol "scaled_value" = true ∨
    ((normScaled d).hasCol "scaled_v" = false ∧ (normScaled d).hasCol "v" = false ∧
      (normScaled d).hasCol "scaled_value" = false) := by
  unfold normScaled
  split
  · rename_i hs
    exact Or.inl hs
  · split
    · exact Or.inl (hasCol_setCol_self d _ _)
    · split
      · exact Or.inl (hasCol_setCol_self d _ _)
      · rename_i hs hsv hv
        exact Or.inr ⟨by simpa using hsv, by simpa using hv, by simpa using hs⟩

theorem hasCol_normOutlier_self (d : DataFrame) :
    (normOutlier d).hasCol "outlier_type" = true := by
  unfold normOutlier
  split
  · exact hasCol_setCol_self d _ _
  · rename_i hcond
    simpa using hcond

/-- C1: the outlier-rate-by-metric table groups the Filtered View by
`metric_type` preserving the full metric-type domain (the view keeps
the dataset's categorical domain, and every category appears as a group
row even with zero matching rows); for each group `n_readings` is the
group's row count, `n_outliers` counts rows with
`outlier_type != "none"`, and `outlier_rate = n_outliers / n_readings`,
with a zero-row group yielding NaN (`none`), distinct from a 0 rate. -/
theorem metricSummary_spec (df : CanonFrame) (sel : Selection) (view : CanonFrame)
    (hp : pipeline df sel = some view) :
    view.metricDomain = df.metricDomain ∧
    (metricSummary view).map (fun g => g.metric) = view.metricDomain ∧
    ∀ g ∈ metricSummary view,
      g.n_readings = (view.rows.filter (fun r => r.metric_type == g.metric)).length ∧
      g.n_outliers = ((view.rows.filter (fun r => r.metric_type == g.metric)).filter
        isOutlier).length ∧
      (g.n_readings = 0 → g.outlier_rate = none ∧ g.outlier_rate ≠ some 0) ∧
      (g.n_readings ≠ 0 →
        g.outlier_rate = some ((g.n_outliers : ℚ) / g.n_readings)) := by
  obtain ⟨hv, -⟩ := pipeline_some_inv df sel view hp
  refine ⟨by rw [hv], ?_, ?_⟩
  · unfold metricSummary
    rw [List.map_map]
    exact List.map_id view.metricDomain
  · intro g hg
    simp only [metricSummary, List.mem_map] at hg
    obtain ⟨m, hm, hgm⟩ := hg
    subst hgm
    refine ⟨rfl, rfl, ?_, ?_⟩ <;> dsimp only
    · intro h0
      rw [if_pos h0]
      exact ⟨rfl, by simp⟩
    · intro h0
      rw [if_neg h0]

/-- Witness for C1 at a concrete dataset and selection. -/
theorem metricSummary_spec_witness :
    (metricSummary sampleView).map (fun g => g.metric) = sampleView.metricDomain :=
  (metricSummary_spec sampleFrame sampleSel sampleView pipeline_sample).2.1

/-- C2: if at most one row survives the metric and device filters, the
script warns and stops (`st.stop()`, modelled `none`): no row-range
selection and no further computation happens in that render pass. -/
theorem degenerate_guard_stops (df : CanonFrame) (sel : Selection)
    (h : (filterByDevice (filterByMetric df.rows sel.selected_metrics)
      sel.selected_devices).length ≤ 1) :
    pipeline df sel = none := by
  have hl : (candidateRows df sel).length ≤ 1 := by
    rw [length_candidateRows]
    exact h
  simp only [pipeline]
  rw [if_pos hl]

/-- Witness for C2: a selection leaving exactly one row stops the
pipeline. -/
theorem degenerate_guard_stops_witness :
    pipeline sampleFrame
      { selected_metrics := [Value.str "fault"]
        selected_devices := [Value.str "d1", Value.str "d2"]
        start_idx := 0
        end_idx := 0 } = none :=
  degenerate_guard_stops _ _ (by decide)

/-- C3 counterexample: on an empty Filtered View the script's overall
outlier-rate expression `(df["outlier_type"] != "none").mean()` is
pandas NaN (modelled `none`), not the exact 0 the claim requires. -/
theorem outlierRate_empty_not_zero :
    outlierRate ([] : List Reading) = none ∧
    outlierRate ([] : List Reading) ≠ some 0 := by
  exact ⟨rfl, by decide⟩

/-- C3 (amended): for every non-empty Filtered View the overall outlier
rate is the fraction of rows with `outlier_type != "none"` and lies in
`[0,1]`; for an empty view the computation yields NaN (`none`), which
is distinct from 0 — the empty case is unreachable in the app because
the rate is computed only after the ≥2-row guard and a non-empty
slice. -/
theorem outlierRate_fraction_bounds (rows : List Reading) :
    (rows ≠ [] → ∃ q : ℚ, outlierRate rows = some q ∧
      q = ((rows.filter isOutlier).length : ℚ) / rows.length ∧ 0 ≤ q ∧ q ≤ 1) ∧
    (rows = [] → outlierRate rows = none) := by
  constructor
  · intro h
    have hlen : rows.length ≠ 0 := by
      simpa using h
    have hpos : (0 : ℚ) < rows.length := by
      exact_mod_cast Nat.pos_of_ne_zero hlen
    refine ⟨((rows.filter isOutlier).length : ℚ) / rows.length,
      by simp [outlierRate, hlen], rfl, ?_, ?_⟩
    · positivity
    · rw [div_le_one hpos]
      exact_mod_cast List.length_filter_le isOutlier rows
  · intro h
    simp [outlierRate, h]

/-- Witness for C3's amended theorem on a concrete non-empty view. -/
theorem outlierRate_fraction_bounds_witness :
    ∃ q : ℚ, outlierRate sampleView.rows = some q ∧
      q = ((sampleView.rows.filter isOutlier).length : ℚ) / sampleView.rows.length ∧
      0 ≤ q ∧ q ≤ 1 :=
  (outlierRate_fraction_bounds sampleView.rows).1 (by decide)

/-- C6: narrowing any filter dimension (fewer selected metrics, fewer
selected devices, or a narrower row range) never increases the Filtered
View's row count. -/
theorem filtered_view_monotone (df : CanonFrame) (sel sel' : Selection)
    (v v' : CanonFrame)
    (hm : sel'.selected_metrics ⊆ sel.selected_metrics)
    (hd : sel'.selected_devices ⊆ sel.selected_devices)
    (hs : sel.start_idx ≤ sel'.start_idx)
    (he : sel'.end_idx ≤ sel.end_idx)
    (hp : pipeline df sel = some v) (hp' : pipeline df sel' = some v') :
    v'.rows.length ≤ v.rows.length := by
  obtain ⟨hv, -⟩ := pipeline_some_inv df sel v hp
  obtain ⟨hv', -⟩ := pipeline_some_inv df sel' v' hp'
  have hn : (candidateRows df sel').length ≤ (candidateRows df sel).length := by
    rw [length_candidateRows, length_candidateRows]
    unfold filterByDevice filterByMetric
    rw [List.filter_filter, List.filter_filter]
    apply length_filter_mono
    intro r hr
    simp only [Bool.and_eq_true] at hr ⊢
    exact ⟨List.elem_iff.mpr (hd (List.elem_iff.mp hr.1)),
      List.elem_iff.mpr (hm (List.elem_iff.mp hr.2))⟩
  simp only [hv, hv']
  rw [length_sliceRows, length_sliceRows]
  exact min_le_min (by omega) (by omega)

/-- Witness for C6: the strictly narrower selection yields at most as
many rows. -/
theorem filtered_view_monotone_witness :
    narrowView.rows.length ≤ sampleView.rows.length :=
  filtered_view_monotone sampleFrame sampleSel narrowSel sampleView narrowView
    (by decide) (by decide) (by decide) (by decide) pipeline_sample pipeline_narrow

/-- C7: the per-metric table's `n_readings` column sums to the Filtered
View's total row count (given the dataset invariants that the metric
dtype's categories are distinct and cover every row's metric). -/
theorem metricSummary_total_readings (df : CanonFrame) (sel : Selection)
    (view : CanonFrame)
    (hnd : df.metricDomain.Nodup)
    (hcov : ∀ r ∈ df.rows, r.metric_type ∈ df.metricDomain)
    (hp : pipeline df sel = some view) :
    ((metricSummary view).map (fun g => g.n_readings)).sum = view.rows.length := by
  have hmem := mem_of_mem_pipeline df sel view hp
  obtain ⟨hv, -⟩ := pipeline_some_inv df sel view hp
  have hdom : view.metricDomain = df.metricDomain := by rw [hv]
  have hmap : (metricSummary view).map (fun g => g.n_readings) =
      view.metricDomain.map
        (fun m => (view.rows.filter (fun r => r.metric_type == m)).length) := by
    simp [metricSummary, List.map_map]
  rw [hmap, hdom]
  exact sum_group_sizes df.metricDomain view.rows hnd (fun r hr => hcov r (hmem r hr))

/-- Witness for C7 at a concrete dataset and selection. -/
theorem metricSummary_total_readings_witness :
    ((metricSummary sampleView).map (fun g => g.n_readings)).sum =
      sampleView.rows.length :=
  metricSummary_total_readings sampleFrame sampleSel sampleView (by decide) (by decide)
    pipeline_sample

/-- C9: when the source dataset lacks an `outlier_type` column
entirely, normalization assigns the sentinel `"none"` to every one of
the dataset's `len(df)` rows — a dataset-level default applied
uniformly. -/
theorem outlier_type_defaults_none (df df' : DataFrame)
    (h : df.hasCol "outlier_type" = false)
    (hn : normalize df = some df') :
    df'.getCol "outlier_type" = some (List.replicate df.nrows (Value.str "none")) := by
  unfold normalize at hn
  cases ht : normTimestamp df with
  | none => rw [ht] at hn; exact absurd hn (by simp)
  | some d =>
    rw [ht] at hn
    simp only [Option.map_some', Option.some.injEq] at hn
    have h1 : d.hasCol "outlier_type" = false := by
      rw [hasCol_normTimestamp_ne df d _ (by decide) ht]
      exact h
    have h2 : (normScaled (normDevice (normMetric d))).hasCol "outlier_type" = false := by
      rw [hasCol_normScaled_ne _ _ (by decide), hasCol_normDevice_ne _ _ (by decide),
        hasCol_normMetric_ne _ _ (by decide)]
      exact h1
    have h3 := getCol_normOutlier_fill _ h2
    have h4 : (normScaled (normDevice (normMetric d))).nrows = df.nrows := by
      rw [nrows_normScaled, nrows_normDevice, nrows_normMetric,
        nrows_normTimestamp df d ht]
    rw [h4] at h3
    rw [← hn]
    exact h3

/-- Witness for C9 on a concrete frame lacking `outlier_type`. -/
theorem outlier_type_defaults_none_witness :
    bareFrameOut.getCol "outlier_type" =
      some (List.replicate bareFrame.nrows (Value.str "none")) :=
  outlier_type_defaults_none bareFrame bareFrameOut (by decide) (by decide)

/-- C10: once the guard has passed (so at least 2 candidate rows exist)
and for any valid slider pair `start_idx ≤ end_idx ≤ n_rows - 1`, the
inclusive row-index slice contains exactly `end_idx - start_idx + 1 ≥ 1`
rows and remains sorted ascending by `timestamp_utc`; hence the
post-slice empty-view placeholder branches are unreachable. -/
theorem slice_nonempty_sorted (df : CanonFrame) (sel : Selection) (view : CanonFrame)
    (hse : sel.start_idx ≤ sel.end_idx)
    (hend : sel.end_idx ≤ (candidateRows df sel).length - 1)
    (hp : pipeline df sel = some view) :
    view.rows.length = sel.end_idx - sel.start_idx + 1 ∧
    1 ≤ view.rows.length ∧
    List.Pairwise (fun a b => tsLe a b = true) view.rows := by
  obtain ⟨hv, h2⟩ := pipeline_some_inv df sel view hp
  have hlen : view.rows.length = sel.end_idx - sel.start_idx + 1 := by
    simp only [hv]
    rw [length_sliceRows]
    omega
  refine ⟨hlen, by omega, ?_⟩
  have hsorted : List.Pairwise (fun a b => tsLe a b = true) (candidateRows df sel) := by
    unfold candidateRows sortByTimestamp
    exact List.sorted_mergeSort tsLe_transitive tsLe_totality _
  simp only [hv]
  exact List.Pairwise.sublist
    ((List.take_sublist _ _).trans (List.drop_sublist _ _)) hsorted

/-- Witness for C10 at a concrete dataset and valid slider pair. -/
theorem slice_nonempty_sorted_witness :
    sampleView.rows.length = sampleSel.end_idx - sampleSel.start_idx + 1 ∧
    1 ≤ sampleView.rows.length ∧
    List.Pairwise (fun a b => tsLe a b = true) sampleView.rows :=
  slice_nonempty_sorted sampleFrame sampleSel sampleView (by decide)
    (by rw [candidate_sample]; decide) pipeline_sample

/-- C4: `timestamp_utc` resolution is an ordered first-match-wins
chain — if the canonical column is absent it is taken from
`ts_utc_parsed`, else from `ts_utc` (each through the timestamp
conversion); if neither legacy column exists, `timestamp_utc` is
synthesized as the ordinals `0..n-1`, and sorting the normalized rows
by this synthesized field reproduces the original row order. -/
theorem timestamp_fallback_chain (df df' : DataFrame)
    (h : df.hasCol "timestamp_utc" = false)
    (hn : normalize df = some df') :
    (∀ T T', df.getCol "ts_utc_parsed" = some T → toDatetimeSeries T = some T' →
      df'.getCol "timestamp_utc" = some T') ∧
    (df.hasCol "ts_utc_parsed" = false →
      ∀ T T', df.getCol "ts_utc" = some T → toDatetimeSeries T = some T' →
        df'.getCol "timestamp_utc" = some T') ∧
    (df.hasCol "ts_utc_parsed" = false → df.hasCol "ts_utc" = false →
      df'.getCol "timestamp_utc" =
        some ((List.range df.nrows).map (fun i : Nat => Value.num (i : ℚ))) ∧
      sortByTimestamp (rowsOf df') = rowsOf df') := by
  unfold normalize at hn
  cases ht : normTimestamp df with
  | none => rw [ht] at hn; exact absurd hn (by simp)
  | some d =>
    rw [ht] at hn
    simp only [Option.map_some', Option.some.injEq] at hn
    have hgc : ∀ X, d.getCol "timestamp_utc" = some X →
        df'.getCol "timestamp_utc" = some X := by
      intro X hd
      rw [← hn, getCol_normOutlier_ne _ _ (by decide), getCol_normScaled_ne _ _ (by decide),
        getCol_normDevice_ne _ _ (by decide), getCol_normMetric_ne _ _ (by decide)]
      exact hd
    have hnr : df'.nrows = df.nrows := by
      rw [← hn, nrows_normOutlier, nrows_normScaled, nrows_normDevice, nrows_normMetric,
        nrows_normTimestamp df d ht]
    refine ⟨?_, ?_, ?_⟩
    · intro T T' hT hser
      have ht2 := normTimestamp_parsed df T T' h hT hser
      rw [ht] at ht2
      injection ht2 with ht3
      exact hgc T' (by rw [ht3]; exact getCol_setCol_self df _ _)
    · intro h1 T T' hT hser
      have ht2 := normTimestamp_tsutc df T T' h h1 hT hser
      rw [ht] at ht2
      injection ht2 with ht3
      exact hgc T' (by rw [ht3]; exact getCol_setCol_self df _ _)
    · intro h1 h2
      have ht2 := normTimestamp_ordinal df h h1 h2
      rw [ht] at ht2
      injection ht2 with ht3
      have hts := hgc _ (by rw [ht3]; exact getCol_setCol_self df _ _)
      refine ⟨hts, ?_⟩
      have hci : ∀ i, i < df.nrows → df'.colAt "timestamp_utc" i = Value.num i := by
        intro i hi
        unfold DataFrame.colAt
        rw [hts]
        simp only [Option.getD_some]
        rw [List.getD_eq_getElem?_getD, List.getElem?_map, List.getElem?_range hi]
        rfl
      have hpair : List.Pairwise (fun a b => tsLe a b = true) (rowsOf df') := by
        unfold rowsOf
        refine List.pairwise_map.mpr ?_
        refine List.Pairwise.imp_of_mem ?_ (List.pairwise_lt_range df'.nrows)
        intro i j hi hj hij
        have hi' : i < df.nrows := by rw [← hnr]; exact List.mem_range.mp hi
        have hj' : j < df.nrows := by rw [← hnr]; exact List.mem_range.mp hj
        show tsLe _ _ = true
        unfold tsLe
        dsimp only
        rw [hci i hi', hci j hj']
        simp only [Value.le, decide_eq_true_eq]
        exact_mod_cast Nat.le_of_lt hij
      unfold sortByTimestamp
      exact List.mergeSort_of_sorted hpair

/-- Witness for C4 on a concrete frame with no timestamp-like column. -/
theorem timestamp_fallback_chain_witness :
    bareFrameOut.getCol "timestamp_utc" =
      some ((List.range bareFrame.nrows).map (fun i : Nat => Value.num (i : ℚ))) ∧
    sortByTimestamp (rowsOf bareFrameOut) = rowsOf bareFrameOut :=
  (timestamp_fallback_chain bareFrame bareFrameOut (by decide) (by decide)).2.2
    (by decide) (by decide)

/-- C8 counterexample, refuting both halves of the claim. First half:
a frame that already carries all five canonical columns is not
returned unchanged by normalization — the timestamp coercion rewrites
its string-typed `timestamp_utc` column. Second half: re-normalizing a
Normalizer output can change it — the ordinal-synthesis path leaves an
int-typed `timestamp_utc` column, and on the second run
`pd.to_datetime(..., errors="ignore")` converts those ints to
timestamps. -/
theorem normalize_changes_canonical_input :
    ((canonStrTsFrame.hasCol "timestamp_utc" = true ∧
      canonStrTsFrame.hasCol "metric_type" = true ∧
      canonStrTsFrame.hasCol "device_id" = true ∧
      canonStrTsFrame.hasCol "scaled_value" = true ∧
      canonStrTsFrame.hasCol "outlier_type" = true) ∧
      normalize canonStrTsFrame ≠ some canonStrTsFrame) ∧
    (normalize bareFrame = some bareFrameOut ∧
      normalize bareFrameOut ≠ some bareFrameOut) := by
  exact ⟨⟨⟨rfl, rfl, rfl, rfl, rfl⟩, by decide⟩, by decide, by decide⟩

/-- C8 (amended): re-normalizing a Normalizer output changes nothing
whenever the source frame had any timestamp source column (canonical
`timestamp_utc`, or legacy `ts_utc_parsed` / `ts_utc`) — an output of
the ordinal-synthesis branch is instead changed by re-normalization,
its int ordinals being converted to timestamps (see the
counterexample); and a dataset already carrying the five canonical
columns is returned unchanged provided the timestamp coercion leaves
its `timestamp_utc` column as-is (which fails, e.g., for parseable
string timestamps — see the counterexample). -/
theorem normalize_idempotent :
    (∀ df df', normalize df = some df' →
      df.hasCol "timestamp_utc" = true ∨ df.hasCol "ts_utc_parsed" = true ∨
        df.hasCol "ts_utc" = true →
      normalize df' = some df') ∧
    (∀ df V, df.hasCol "metric_type" = true → df.hasCol "device_id" = true →
      df.hasCol "scaled_value" = true → df.hasCol "outlier_type" = true →
      df.getCol "timestamp_utc" = some V → toDatetimeIgnore V = V →
      normalize df = some df) := by
  constructor
  · intro df df' h hsrc
    unfold normalize at h
    cases ht : normTimestamp df with
    | none => rw [ht] at h; exact absurd h (by simp)
    | some d =>
      rw [ht] at h
      simp only [Option.map_some', Option.some.injEq] at h
      obtain ⟨V, hV, hVfix⟩ := normTimestamp_fixpoint df d ht hsrc
      have hts' : df'.getCol "timestamp_utc" = some V := by
        rw [← h, getCol_normOutlier_ne _ _ (by decide), getCol_normScaled_ne _ _ (by decide),
          getCol_normDevice_ne _ _ (by decide), getCol_normMetric_ne _ _ (by decide)]
        exact hV
      have ht' : normTimestamp df' = some df' := by
        rw [normTimestamp_present df' V hts', hVfix, setCol_getCol_eq df' _ V hts']
      have hm : normMetric df' = df' := by
        rcases normMetric_dichotomy d with hc | ⟨hdt, hmt⟩
        · apply normMetric_of_hasCol
          rw [← h, hasCol_normOutlier_ne _ _ (by decide),
            hasCol_normScaled_ne _ _ (by decide), hasCol_normDevice_ne _ _ (by decide)]
          exact hc
        · apply normMetric_of_absent
          rw [← h, hasCol_normOutlier_ne _ _ (by decide),
            hasCol_normScaled_ne _ _ (by decide), hasCol_normDevice_ne _ _ (by decide)]
          exact hdt
      have hd2 : normDevice df' = df' := by
        rcases normDevice_dichotomy (normMetric d) with hc | ⟨hrd, hdv⟩
        · apply normDevice_of_hasCol
          rw [← h, hasCol_normOutlier_ne _ _ (by decide),
            hasCol_normScaled_ne _ _ (by decide)]
          exact hc
        · apply normDevice_of_absent
          rw [← h, hasCol_normOutlier_ne _ _ (by decide),
            hasCol_normScaled_ne _ _ (by decide)]
          exact hrd
      have hs2 : normScaled df' = df' := by
        rcases normScaled_dichotomy (normDevice (normMetric d)) with hc | ⟨hsv, hvv, hsc⟩
        · apply normScaled_of_hasCol
          rw [← h, hasCol_normOutlier_ne _ _ (by decide)]
          exact hc
        · apply normScaled_of_absent
          · rw [← h, hasCol_normOutlier_ne _ _ (by decide)]
            exact hsv
          · rw [← h, hasCol_normOutlier_ne _ _ (by decide)]
            exact hvv
      have ho2 : normOutlier df' = df' := by
        apply normOutlier_of_hasCol
        rw [← h]
        exact hasCol_normOutlier_self _
      rw [normalize_eq df' df' ht', hm, hd2, hs2, ho2]
  · intro df V hm hd hs ho hts hfix
    have ht : normTimestamp df = some df := by
      rw [normTimestamp_present df V hts, hfix, setCol_getCol_eq df _ V hts]
    rw [normalize_eq df df ht, normMetric_of_hasCol df hm, normDevice_of_hasCol df hd,
      normScaled_of_hasCol df hs, normOutlier_of_hasCol df ho]

/-- Witness for C8's amended theorem: re-normalizing the normalized
form of `canonGoodFrame` (whose timestamp axis came from the
conversion, not from ordinal synthesis) changes nothing. -/
theorem normalize_idempotent_witness :
    normalize canonGoodFrameOut = some canonGoodFrameOut :=
  normalize_idempotent.1 canonGoodFrame canonGoodFrameOut (by decide)
    (Or.inl (by decide))

/-- C5 counterexample: with the same unparseable timestamp values the
legacy-named frame makes `load_data` raise inside `pd.to_datetime` (no
output at all), while the canonically-named frame normalizes fine via
`errors="ignore"` — so the two equivalent inputs do not produce the
same canonical output. -/
theorem legacy_canonical_divergence :
    normalize legacyBadFrame = none ∧ (normalize canonBadFrame).isSome = true := by
  exact ⟨by decide, by decide⟩

/-- C5 (amended): a source dataset using only legacy column names
(`dt`, `ref_d`, `scaled_v` or `v`, `ts_utc_parsed` or `ts_utc`)
normalizes to the same canonical five-column output as a dataset
carrying the equivalent underlying values under the canonical names,
provided every timestamp value converts successfully (for unparseable
values the legacy path raises while the canonical path passes them
through — see the counterexample). -/
theorem legacy_equiv_canonical (L C : DataFrame) (T T' M D S : List Value)
    (hL1 : L.hasCol "timestamp_utc" = false)
    (hL2 : L.hasCol "metric_type" = false)
    (hL3 : L.hasCol "device_id" = false)
    (hL4 : L.hasCol "scaled_value" = false)
    (hL5 : L.hasCol "outlier_type" = false)
    (hts : L.getCol "ts_utc_parsed" = some T ∨
      (L.hasCol "ts_utc_parsed" = false ∧ L.getCol "ts_utc" = some T))
    (hdt : L.getCol "dt" = some M)
    (hrd : L.getCol "ref_d" = some D)
    (hsv : L.getCol "scaled_v" = some S ∨
      (L.hasCol "scaled_v" = false ∧ L.getCol "v" = some S))
    (hparse : toDatetimeSeries T = some T')
    (hC1 : C.getCol "timestamp_utc" = some T)
    (hC2 : C.getCol "metric_type" = some M)
    (hC3 : C.getCol "device_id" = some D)
    (hC4 : C.getCol "scaled_value" = some S)
    (hC5 : C.hasCol "outlier_type" = false)
    (hnr : C.nrows = L.nrows) :
    ∃ L' C', normalize L = some L' ∧ normalize C = some C' ∧
      L'.getCol "timestamp_utc" = C'.getCol "timestamp_utc" ∧
      L'.getCol "metric_type" = C'.getCol "metric_type" ∧
      L'.getCol "device_id" = C'.getCol "device_id" ∧
      L'.getCol "scaled_value" = C'.getCol "scaled_value" ∧
      L'.getCol "outlier_type" = C'.getCol "outlier_type" := by
  have htL : normTimestamp L = some (L.setCol "timestamp_utc" T') := by
    rcases hts with h | ⟨hp, h⟩
    · exact normTimestamp_parsed L T T' hL1 h hparse
    · exact normTimestamp_tsutc L T T' hL1 hp h hparse
  have htC : normTimestamp C = some (C.setCol "timestamp_utc" T') := by
    rw [normTimestamp_present C T hC1, toDatetimeIgnore_of_series T T' hparse]
  refine ⟨_, _, normalize_eq L _ htL, normalize_eq C _ htC, ?_, ?_, ?_, ?_, ?_⟩
  · -- timestamp_utc: both sides carry the converted series T'
    have eL : (normOutlier (normScaled (normDevice (normMetric
        (L.setCol "timestamp_utc" T'))))).getCol "timestamp_utc" = some T' := by
      rw [getCol_normOutlier_ne _ "timestamp_utc" (by decide),
        getCol_normScaled_ne _ "timestamp_utc" (by decide),
        getCol_normDevice_ne _ "timestamp_utc" (by decide),
        getCol_normMetric_ne _ "timestamp_utc" (by decide)]
      exact getCol_setCol_self L _ _
    have eC : (normOutlier (normScaled (normDevice (normMetric
        (C.setCol "timestamp_utc" T'))))).getCol "timestamp_utc" = some T' := by
      rw [getCol_normOutlier_ne _ "timestamp_utc" (by decide),
        getCol_normScaled_ne _ "timestamp_utc" (by decide),
        getCol_normDevice_ne _ "timestamp_utc" (by decide),
        getCol_normMetric_ne _ "timestamp_utc" (by decide)]
      exact getCol_setCol_self C _ _
    rw [eL, eC]
  · -- metric_type: both sides carry M
    have eL : (normOutlier (normScaled (normDevice (normMetric
        (L.setCol "timestamp_utc" T'))))).getCol "metric_type" = some M := by
      rw [getCol_normOutlier_ne _ "metric_type" (by decide),
        getCol_normScaled_ne _ "metric_type" (by decide),
        getCol_normDevice_ne _ "metric_type" (by decide)]
      apply getCol_normMetric_copy
      · rw [hasCol_setCol_ne L "timestamp_utc" "metric_type" T' (by decide)]
        exact hL2
      · rw [getCol_setCol_ne L "timestamp_utc" "dt" T' (by decide)]
        exact hdt
    have hCm : (C.setCol "timestamp_utc" T').hasCol "metric_type" = true := by
      rw [hasCol_setCol_ne C "timestamp_utc" "metric_type" T' (by decide)]
      exact hasCol_of_getCol C _ M hC2
    have eC : (normOutlier (normScaled (normDevice (normMetric
        (C.setCol "timestamp_utc" T'))))).getCol "metric_type" = some M := by
      rw [getCol_normOutlier_ne _ "metric_type" (by decide),
        getCol_normScaled_ne _ "metric_type" (by decide),
        getCol_normDevice_ne _ "metric_type" (by decide),
        normMetric_of_hasCol _ hCm,
        getCol_setCol_ne C "timestamp_utc" "metric_type" T' (by decide)]
      exact hC2
    rw [eL, eC]
  · -- device_id: both sides carry D
    have eL : (normOutlier (normScaled (normDevice (normMetric
        (L.setCol "timestamp_utc" T'))))).getCol "device_id" = some D := by
      rw [getCol_normOutlier_ne _ "device_id" (by decide),
        getCol_normScaled_ne _ "device_id" (by decide)]
      apply getCol_normDevice_copy
      · rw [hasCol_normMetric_ne _ "device_id" (by decide),
          hasCol_setCol_ne L "timestamp_utc" "device_id" T' (by decide)]
        exact hL3
      · rw [getCol_normMetric_ne _ "ref_d" (by decide),
          getCol_setCol_ne L "timestamp_utc" "ref_d" T' (by decide)]
        exact hrd
    have hCd : (normMetric (C.setCol "timestamp_utc" T')).hasCol "device_id" = true := by
      rw [hasCol_normMetric_ne _ "device_id" (by decide),
        hasCol_setCol_ne C "timestamp_utc" "device_id" T' (by decide)]
      exact hasCol_of_getCol C _ D hC3
    have eC : (normOutlier (normScaled (normDevice (normMetric
        (C.setCol "timestamp_utc" T'))))).getCol "device_id" = some D := by
      rw [getCol_normOutlier_ne _ "device_id" (by decide),
        getCol_normScaled_ne _ "device_id" (by decide),
        normDevice_of_hasCol _ hCd,
        getCol_normMetric_ne _ "device_id" (by decide),
        getCol_setCol_ne C "timestamp_utc" "device_id" T' (by decide)]
      exact hC3
    rw [eL, eC]
  · -- scaled_value: both sides carry S
    have eL : (normOutlier (normScaled (normDevice (normMetric
        (L.setCol "timestamp_utc" T'))))).getCol "scaled_value" = some S := by
      rw [getCol_normOutlier_ne _ "scaled_value" (by decide)]
      apply getCol_normScaled_copy
      · rw [hasCol_normDevice_ne _ "scaled_value" (by decide),
          hasCol_normMetric_ne _ "scaled_value" (by decide),
          hasCol_setCol_ne L "timestamp_utc" "scaled_value" T' (by decide)]
        exact hL4
      · rcases hsv with h | ⟨ha, hb⟩
        · refine Or.inl ?_
          rw [getCol_normDevice_ne _ "scaled_v" (by decide),
            getCol_normMetric_ne _ "scaled_v" (by decide),
            getCol_setCol_ne L "timestamp_utc" "scaled_v" T' (by decide)]
          exact h
        · refine Or.inr ⟨?_, ?_⟩
          · rw [hasCol_normDevice_ne _ "scaled_v" (by decide),
              hasCol_normMetric_ne _ "scaled_v" (by decide),
              hasCol_setCol_ne L "timestamp_utc" "scaled_v" T' (by decide)]
            exact ha
          · rw [getCol_normDevice_ne _ "v" (by decide),
              getCol_normMetric_ne _ "v" (by decide),
              getCol_setCol_ne L "timestamp_utc" "v" T' (by decide)]
            exact hb
    have hCs : (normDevice (normMetric
        (C.setCol "timestamp_utc" T'))).hasCol "scaled_value" = true := by
      rw [hasCol_normDevice_ne _ "scaled_value" (by decide),
        hasCol_normMetric_ne _ "scaled_value" (by decide),
        hasCol_setCol_ne C "timestamp_utc" "scaled_value" T' (by decide)]
      exact hasCol_of_getCol C _ S hC4
    have eC : (normOutlier (normScaled (normDevice (normMetric
        (C.setCol "timestamp_utc" T'))))).getCol "scaled_value" = some S := by
      rw [getCol_normOutlier_ne _ "scaled_value" (by decide),
        normScaled_of_hasCol _ hCs,
        getCol_normDevice_ne _ "scaled_value" (by decide),
        getCol_normMetric_ne _ "scaled_value" (by decide),
        getCol_setCol_ne C "timestamp_utc" "scaled_value" T' (by decide)]
      exact hC4
    rw [eL, eC]
  · -- outlier_type: both sides get the "none" fill of equal length
    have hLo : (normScaled (normDevice (normMetric
        (L.setCol "timestamp_utc" T')))).hasCol "outlier_type" = false := by
      rw [hasCol_normScaled_ne _ "outlier_type" (by decide),
        hasCol_normDevice_ne _ "outlier_type" (by decide),
        hasCol_normMetric_ne _ "outlier_type" (by decide),
        hasCol_setCol_ne L "timestamp_utc" "outlier_type" T' (by decide)]
      exact hL5
    have hCo : (normScaled (normDevice (normMetric
        (C.setCol "timestamp_utc" T')))).hasCol "outlier_type" = false := by
      rw [hasCol_normScaled_ne _ "outlier_type" (by decide),
        hasCol_normDevice_ne _ "outlier_type" (by decide),
        hasCol_normMetric_ne _ "outlier_type" (by decide),
        hasCol_setCol_ne C "timestamp_utc" "outlier_type" T' (by decide)]
      exact hC5
    have eL := getCol_normOutlier_fill _ hLo
    have eC := getCol_normOutlier_fill _ hCo
    have hnL : (normScaled (normDevice (normMetric
        (L.setCol "timestamp_utc" T')))).nrows = L.nrows := by
      rw [nrows_normScaled, nrows_normDevice, nrows_normMetric, nrows_setCol]
    have hnC : (normScaled (normDevice (normMetric
        (C.setCol "timestamp_utc" T')))).nrows = C.nrows := by
      rw [nrows_normScaled, nrows_normDevice, nrows_normMetric, nrows_setCol]
    rw [eL, eC, hnL, hnC, hnr]

/-- Witness for C5's amended theorem on concrete legacy and canonical
frames with parseable timestamps. -/
theorem legacy_equiv_canonical_witness :
    ∃ L' C', normalize legacyGoodFrame = some L' ∧
      normalize canonGoodFrame = some C' ∧
      L'.getCol "timestamp_utc" = C'.getCol "timestamp_utc" ∧
      L'.getCol "metric_type" = C'.getCol "metric_type" ∧
      L'.getCol "device_id" = C'.getCol "device_id" ∧
      L'.getCol "scaled_value" = C'.getCol "scaled_value" ∧
      L'.getCol "outlier_type" = C'.getCol "outlier_type" :=
  legacy_equiv_canonical legacyGoodFrame canonGoodFrame
    [Value.str "3", Value.str "7"] [Value.ts 3, Value.ts 7]
    [Value.str "current", Value.str "fault"] [Value.str "d1", Value.str "d2"]
    [Value.num 40, Value.num 50]
    (by decide) (by decide) (by decide) (by decide) (by decide)
    (Or.inl (by decide)) (by decide) (by decide) (Or.inl (by decide))
    (by decide) (by decide) (by decide) (by decide) (by decide) (by decide) (by decide)

end GreenhouseApp
